import Mathlib

/-!
Formal model of the metro signage backend (two variants).

Variant A (`metro_signage_structure_A/backend/main.py`) polls the Golemio
departure-board JSON API, normalizes it to a small departure record, tracks a
last-success instant for the online flag, and pushes bounded batches over a
websocket.  Variant C (`metro_signage_structure_C/backend/main.py`) polls a
GTFS-RT protobuf feed and pushes batches over a websocket with a simulated
fallback.

Modelling conventions:
* Python strings are `List Char` (`Str`): Python compares, slices and iterates
  strings by code point, which is exactly `List Char`.
* `datetime` instants are integer seconds since the Unix epoch (the code only
  ever uses second-level arithmetic on them).
* Python's `sorted`/`list.sort` is a stable sort; it is modelled by
  `List.insertionSort`, which is also stable, so both compute the same
  function of the input list for the total preorders used here.
* I/O (HTTP fetch, file reads, websocket transport) is out of the embedding;
  the fetch result reaching the pure code is passed in as an `Option` value.
-/

/-- Python strings as lists of code points. -/
abbrev Str := List Char

/-- Python `str.strip()`: drop whitespace from both ends. -/
def pyStrip (s : Str) : Str :=
  ((s.dropWhile Char.isWhitespace).reverse.dropWhile Char.isWhitespace).reverse

/-- Python `str.upper()` (ASCII case mapping, which covers every line code the
program compares). -/
def pyUpper (s : Str) : Str := s.map Char.toUpper

/-- Python `a or b` where `a` is an optional string: `None` and `""` are falsy. -/
def pyOr (a : Option Str) (b : Str) : Str :=
  match a with
  | some s => if s = [] then b else s
  | none => b

/-- Python `a or b` on two strings: `""` is falsy. -/
def pyOrS (a b : Str) : Str := if a = [] then b else a

/-- Python `<` on strings: lexicographic by code point, a proper prefix is
smaller. -/
def strLt : Str → Str → Bool
  | _, [] => false
  | [], _ :: _ => true
  | a :: as, b :: bs => if a < b then true else if b < a then false else strLt as bs

/-- Python `<=` on strings. -/
def strLe (a b : Str) : Bool := !(strLt b a)

theorem strLt_irrefl : ∀ s : Str, strLt s s = false := by
  intro s
  induction s with
  | nil => rfl
  | cons a as ih => simp [strLt, lt_irrefl, ih]

theorem strLt_trans : ∀ {a b c : Str}, strLt a b = true → strLt b c = true →
    strLt a c = true := by
  intro a
  induction a with
  | nil =>
    intro b c hab hbc
    cases c with
    | nil => cases b <;> simp [strLt] at hab hbc
    | cons c cs => simp [strLt]
  | cons x xs ih =>
    intro b c hab hbc
    cases b with
    | nil => simp [strLt] at hab
    | cons y ys =>
      cases c with
      | nil => simp [strLt] at hbc
      | cons z zs =>
        simp only [strLt] at hab hbc ⊢
        rcases lt_trichotomy x y with hxy | hxy | hxy
        · rcases lt_trichotomy y z with hyz | hyz | hyz
          · simp [lt_trans hxy hyz]
          · subst hyz; simp [hxy]
          · simp [hyz, not_lt_of_gt hyz] at hbc
        · subst hxy
          simp [lt_irrefl] at hab
          rcases lt_trichotomy x z with hxz | hxz | hxz
          · simp [hxz]
          · subst hxz
            simp only [lt_irrefl, if_false] at hbc ⊢
            exact ih hab hbc
          · simp [hxz, not_lt_of_gt hxz] at hbc
        · simp [hxy, not_lt_of_gt hxy] at hab

theorem strLt_eq_of_not : ∀ {a b : Str}, strLt a b = false → strLt b a = false →
    a = b := by
  intro a
  induction a with
  | nil =>
    intro b hab _
    cases b with
    | nil => rfl
    | cons y ys => simp [strLt] at hab
  | cons x xs ih =>
    intro b hab hba
    cases b with
    | nil => simp [strLt] at hba
    | cons y ys =>
      simp only [strLt] at hab hba
      rcases lt_trichotomy x y with hxy | hxy | hxy
      · simp [hxy] at hab
      · subst hxy
        simp only [lt_irrefl, if_false] at hab hba
        rw [ih hab hba]
      · simp [hxy] at hba

theorem strLe_total : ∀ a b : Str, strLe a b = true ∨ strLe b a = true := by
  intro a b
  simp only [strLe, Bool.not_eq_true']
  by_cases h : strLt b a = true
  · right
    by_cases h' : strLt a b = true
    · exact absurd (strLt_trans h h') (by simp [strLt_irrefl])
    · simpa using h'
  · left; simpa using h

theorem strLe_trans : ∀ {a b c : Str}, strLe a b = true → strLe b c = true →
    strLe a c = true := by
  intro a b c hab hbc
  simp only [strLe, Bool.not_eq_true'] at hab hbc ⊢
  by_cases hca : strLt c a = true
  · by_cases hab' : strLt a b = true
    · exact absurd (strLt_trans hca hab') (by simp [hbc])
    · have : a = b := strLt_eq_of_not (by simpa using hab') hab
      subst this
      exact absurd hca (by simp [hbc])
  · simpa using hca

/-! ## Datetime model

`datetime` instants are integer seconds since the Unix epoch.  A parsed
`datetime.datetime` value is its naive wall-clock seconds plus an optional
UTC-offset (`tzinfo`) in seconds. -/

/-- Result of Python `datetime.fromisoformat`: wall-clock seconds since the
epoch plus the optional parsed UTC offset in seconds. -/
structure PyDatetime where
  secs : Int
  tz : Option Int
deriving DecidableEq

/-- Numeric value of an ASCII digit. -/
def digitVal (c : Char) : Option Nat :=
  if c.isDigit then some (c.toNat - 48) else none

/-- Two-digit decimal field. -/
def num2 (a b : Char) : Option Nat := do
  let x ← digitVal a
  let y ← digitVal b
  pure (10 * x + y)

/-- Four-digit decimal field. -/
def num4 (a b c d : Char) : Option Nat := do
  let x ← num2 a b
  let y ← num2 c d
  pure (100 * x + y)

def isLeapYear (y : Nat) : Bool :=
  (y % 4 == 0 && y % 100 != 0) || y % 400 == 0

def daysInMonth (y m : Nat) : Nat :=
  if m = 2 then (if isLeapYear y then 29 else 28)
  else if m = 4 ∨ m = 6 ∨ m = 9 ∨ m = 11 then 30
  else 31

/-- Days from 1970-01-01 to the civil date `y-m-d` (valid for `1 ≤ y`,
`1 ≤ m ≤ 12`); the classic era-based civil-calendar conversion. -/
def daysFromCivil (y m d : Nat) : Int :=
  let y' := if m ≤ 2 then y - 1 else y
  let era := y' / 400
  let yoe := y' % 400
  let mp := if 2 < m then m - 3 else m + 9
  let doy := (153 * mp + 2) / 5 + (d - 1)
  let doe := yoe * 365 + yoe / 4 - yoe / 100 + doy
  (era * 146097 + doe : Int) - 719468

/-- Validate calendar/time-of-day fields the way `datetime` does and build the
naive epoch-seconds value. -/
def mkPyDatetime (y mo d h mi s : Nat) (tz : Option Int) : Option PyDatetime :=
  if 1 ≤ y ∧ 1 ≤ mo ∧ mo ≤ 12 ∧ 1 ≤ d ∧ d ≤ daysInMonth y mo ∧
      h ≤ 23 ∧ mi ≤ 59 ∧ s ≤ 59 then
    some ⟨86400 * daysFromCivil y mo d + 3600 * h + 60 * mi + s, tz⟩
  else none

/-- Model of `datetime.datetime.fromisoformat` on the instant shapes this
program feeds it: `YYYY-MM-DDTHH:MM:SS` optionally followed by a `+HH:MM` or
`-HH:MM` offset (a literal `Z` never reaches this function — the caller
rewrites it to `+00:00` first, mirroring Python versions whose
`fromisoformat` rejects `Z`).  Anything else is malformed and yields `none`
(Python raises `ValueError`, which the caller turns into `None`). -/
def fromisoformat (s : Str) : Option PyDatetime :=
  match s with
  | [y1, y2, y3, y4, '-', o1, o2, '-', d1, d2, 'T', h1, h2, ':', m1, m2, ':', s1, s2] => do
    let y ← num4 y1 y2 y3 y4
    let mo ← num2 o1 o2
    let d ← num2 d1 d2
    let h ← num2 h1 h2
    let mi ← num2 m1 m2
    let se ← num2 s1 s2
    mkPyDatetime y mo d h mi se none
  | [y1, y2, y3, y4, '-', o1, o2, '-', d1, d2, 'T', h1, h2, ':', m1, m2, ':', s1, s2,
     sg, g1, g2, ':', g3, g4] => do
    let y ← num4 y1 y2 y3 y4
    let mo ← num2 o1 o2
    let d ← num2 d1 d2
    let h ← num2 h1 h2
    let mi ← num2 m1 m2
    let se ← num2 s1 s2
    let oh ← num2 g1 g2
    let om ← num2 g3 g4
    if oh ≤ 23 ∧ om ≤ 59 then
      let off : Int := 3600 * oh + 60 * om
      if sg = '+' then mkPyDatetime y mo d h mi se (some off)
      else if sg = '-' then mkPyDatetime y mo d h mi se (some (-off))
      else none
    else none
  | _ => none

/-- Python `s.replace("Z", "+00:00")`: expand every `Z`. -/
def replaceZ : Str → Str
  | [] => []
  | c :: rest =>
    if c = 'Z' then '+' :: '0' :: '0' :: ':' :: '0' :: '0' :: replaceZ rest
    else c :: replaceZ rest

/-! ## Variant A: Golemio departure-board backend (`structure_A/backend/main.py`) -/

/-- Model of `_parse_iso`: `None`/empty is absent; rewrite `Z` to `+00:00`; parse; a
`ValueError` becomes `None`; a naive result is tagged UTC; finally convert to
UTC epoch seconds (`astimezone(dt.timezone.utc)`). -/
def parse_iso (s : Option Str) : Option Int :=
  match s with
  | none => none
  | some s =>
    if s = [] then none
    else
      match fromisoformat (replaceZ s) with
      | none => none
      | some d =>
        match d.tz with
        | none => some d.secs
        | some off => some (d.secs - off)

/-- Model of `_minutes_until`: `max(0, int((ts_utc - now_utc).total_seconds() // 60))`;
float floor-division is `Int.fdiv` at second granularity. -/
def minutes_until (ts_utc : Option Int) (now_utc : Int) : Option Int :=
  match ts_utc with
  | none => none
  | some t => some (max 0 (Int.fdiv (t - now_utc) 60))

/-- The `route` sub-object of a departure entry. -/
structure Route where
  short_name : Option Str := none
deriving DecidableEq

/-- The `trip` sub-object of a departure entry. -/
structure Trip where
  headsign : Option Str := none
deriving DecidableEq

/-- The `last_stop` sub-object of a departure entry. -/
structure LastStop where
  name : Option Str := none
deriving DecidableEq

/-- The `departure_timestamp` sub-object of a departure entry. -/
structure DepartureTimestamp where
  predicted : Option Str := none
  scheduled : Option Str := none
deriving DecidableEq

/-- One raw entry of the Golemio `departures` array (the fields the code
reads; a missing sub-object behaves as one with every field absent, matching
`dep.get(...) or {}`). -/
structure GolemioDeparture where
  route : Route := {}
  trip : Trip := {}
  last_stop : LastStop := {}
  departure_timestamp : DepartureTimestamp := {}
deriving DecidableEq

/-- The Golemio payload (the `departures` list the code reads). -/
structure GolemioPayload where
  departures : List GolemioDeparture
deriving DecidableEq

/-- Normalized departure record built by variant A; `t_utc` holds the used
UTC instant (serialized with `isoformat()` in the code). -/
structure DepRecord where
  line : Str
  dest : Str
  in_min : Int
  t_utc : Int
deriving DecidableEq

/-- The placeholder destination glyph `"—"`. -/
def emDash : Str := ['—']

/-- The constant `METRO_LINE = "A"`. -/
def METRO_LINE : Str := ['A']

/-- Line code extracted from an entry:
`str(route.get("short_name") or "").strip().upper()`. -/
def route_line (dep : GolemioDeparture) : Str :=
  pyUpper (pyStrip (pyOr dep.route.short_name []))

/-- Destination extracted from an entry:
`str(trip.get("headsign") or last_stop.get("name") or "—").strip() or "—"`. -/
def dep_dest (dep : GolemioDeparture) : Str :=
  pyOrS (pyStrip (pyOr dep.trip.headsign (pyOr dep.last_stop.name emDash))) emDash

/-- Loop body of `normalize_departureboards` for one entry; `ml` is the
already-normalized target line. -/
def normalize_entry (ml : Str) (now : Int) (dep : GolemioDeparture) :
    Option DepRecord :=
  if route_line dep ≠ ml then none
  else
    let predicted := parse_iso dep.departure_timestamp.predicted
    let scheduled := parse_iso dep.departure_timestamp.scheduled
    let used := match predicted with
      | some t => some t
      | none => scheduled
    match used with
    | none => none
    | some t =>
      match minutes_until (some t) now with
      | none => none
      | some m => some ⟨ml, dep_dest dep, m, t⟩

/-- Sort order of variant A's output:
`out.sort(key=lambda x: (x["in_min"], x["dest"]))`. -/
def depLeP (a b : DepRecord) : Prop :=
  a.in_min < b.in_min ∨ (a.in_min = b.in_min ∧ strLe a.dest b.dest = true)

instance : DecidableRel depLeP := fun a b => by
  unfold depLeP; infer_instance

instance : IsTotal DepRecord depLeP := by
  constructor
  intro a b
  rcases lt_trichotomy a.in_min b.in_min with h | h | h
  · exact Or.inl (Or.inl h)
  · rcases strLe_total a.dest b.dest with hs | hs
    · exact Or.inl (Or.inr ⟨h, hs⟩)
    · exact Or.inr (Or.inr ⟨h.symm, hs⟩)
  · exact Or.inr (Or.inl h)

instance : IsTrans DepRecord depLeP := by
  constructor
  intro a b c hab hbc
  rcases hab with h1 | ⟨h1, hs1⟩ <;> rcases hbc with h2 | ⟨h2, hs2⟩
  · exact Or.inl (lt_trans h1 h2)
  · exact Or.inl (h2 ▸ h1)
  · exact Or.inl (h1 ▸ h2)
  · exact Or.inr ⟨h1.trans h2, strLe_trans hs1 hs2⟩

/-- Model of `normalize_departureboards(payload, metro_line=...)` at instant `now`
(the single `_utc_now()` captured for the whole batch). -/
def normalize_departureboards (payload : GolemioPayload) (metro_line : Str)
    (now : Int) : List DepRecord :=
  let ml := pyUpper (pyStrip metro_line)
  List.insertionSort depLeP (payload.departures.filterMap (normalize_entry ml now))

/-- Model of `fetch_golemio_departures`: with no API key, live data is disabled and the
function returns `None`; any HTTP/JSON failure (modelled as `response =
none`) returns `None`; otherwise the parsed payload is normalized.  The
network transfer itself is out of the embedding — `response` is what `r.json()`
would have produced. -/
def fetch_golemio_departures (api_key : Str) (response : Option GolemioPayload)
    (now : Int) : Option (List DepRecord) :=
  if api_key = [] then none
  else
    match response with
    | none => none
    | some payload => some (normalize_departureboards payload METRO_LINE now)

/-- The module-level state variant A's poller mutates: `LATEST_DEPARTURES`
and `LAST_OK_UTC`. -/
structure PollStateA where
  latest : List DepRecord := []
  last_ok_utc : Option Int := none
deriving DecidableEq

/-- One iteration of `poller_loop`'s body: `deps` is the result of
`fetch_golemio_departures`, `now` the `_utc_now()` of this cycle. -/
def poller_cycle (st : PollStateA) (deps : Option (List DepRecord)) (now : Int) :
    PollStateA :=
  match deps with
  | none => st
  | some l => { latest := l, last_ok_utc := some now }

/-- Model of `_is_online()`: false while no fetch ever succeeded, else a recency
comparison against `OFFLINE_AFTER_SECONDS`. -/
def is_online (last_ok_utc : Option Int) (now : Int) (offline_after : Int) :
    Bool :=
  match last_ok_utc with
  | none => false
  | some t => decide (now - t ≤ offline_after)

/-- JSON values, used to state the exact shape of pushed messages. -/
inductive JVal where
  | jstr : Str → JVal
  | jint : Int → JVal
  | jbool : Bool → JVal
  | jarr : List JVal → JVal
  | jobj : List (Str × JVal) → JVal

/-- Serialization of one variant-A record inside a pushed message. -/
def depRecordJson (r : DepRecord) : JVal :=
  .jobj [(("line").toList, .jstr r.line), (("dest").toList, .jstr r.dest),
    (("in_min").toList, .jint r.in_min), (("t_utc").toList, .jint r.t_utc)]

/-- Departures list built by one cycle of `ws_updates`:
`LATEST_DEPARTURES[:20] if LATEST_DEPARTURES else []`, then a placeholder
record when that is empty. -/
def ws_updates_departures (latest : List DepRecord) (now : Int) :
    List DepRecord :=
  let departures := if latest ≠ [] then latest.take 20 else []
  if departures = [] then [⟨METRO_LINE, emDash, 0, now⟩] else departures

/-- One message sent by variant A's `ws_updates` loop (`send_json` payload),
as an ordered key/value object. -/
def ws_updates_message (latest : List DepRecord) (now : Int) (online : Bool) :
    List (Str × JVal) :=
  [(("t").toList, .jint now),
   (("departures").toList, .jarr ((ws_updates_departures latest now).map depRecordJson)),
   (("online").toList, .jbool online)]

/-! ## Variant C: GTFS-RT backend (`structure_C/backend/main.py`) -/

/-- GTFS-RT `StopTimeEvent` (the `arrival` message): predicted epoch
seconds. -/
structure StopTimeEvent where
  time : Int := 0
deriving DecidableEq

/-- GTFS-RT `StopTimeUpdate`; `arrival = none` models `HasField("arrival")`
being false. -/
structure StopTimeUpdate where
  arrival : Option StopTimeEvent := none
deriving DecidableEq

/-- GTFS-RT `TripDescriptor`.  `trip_headsign` models
`getattr(tu.trip, "trip_headsign", None)`: the standard descriptor has no
such field, so at runtime this is always `none`; it is kept optional to
preserve the code's dataflow. -/
structure TripDescriptor where
  route_id : Str := []
  trip_headsign : Option Str := none
deriving DecidableEq

/-- GTFS-RT `TripUpdate`. -/
structure TripUpdate where
  trip : TripDescriptor := {}
  stop_time_update : List StopTimeUpdate := []
deriving DecidableEq

/-- GTFS-RT `FeedEntity`; `trip_update = none` models
`HasField("trip_update")` being false. -/
structure FeedEntity where
  trip_update : Option TripUpdate := none
deriving DecidableEq

/-- GTFS-RT `FeedMessage` as produced by a successful `ParseFromString`. -/
structure FeedMessage where
  entity : List FeedEntity
deriving DecidableEq

/-- Record built by variant C's parser. -/
structure GtfsRecord where
  line : Str
  dest : Str
  in_min : Int
deriving DecidableEq

/-- The loop guard `stu.HasField("arrival") and getattr(stu.arrival, "time",
None)`: an arrival sub-message with a truthy (nonzero) time. -/
def hasUsableArrival (stu : StopTimeUpdate) : Bool :=
  match stu.arrival with
  | some ev => decide (ev.time ≠ 0)
  | none => false

/-- Arrival seconds of a stop-time update (0 when absent; only read after
`hasUsableArrival`). -/
def arrivalTime (stu : StopTimeUpdate) : Int :=
  (stu.arrival.map StopTimeEvent.time).getD 0

/-- Model of `in_min = max(0, int((arrival_ts - now_ts) / 60))`: Python `int()` on the
float quotient truncates toward zero, i.e. `Int.tdiv`. -/
def gtfs_in_min (arrival_ts now_ts : Int) : Int :=
  max 0 (Int.tdiv (arrival_ts - now_ts) 60)

/-- The inner `for stu in tu.stop_time_update: ... break` loop plus the
record construction: at most one record per entity, from the first stop-time
update with a usable arrival. -/
def entity_departure (now_ts : Int) (e : FeedEntity) : Option GtfsRecord :=
  match e.trip_update with
  | none => none
  | some tu =>
    let route_id := tu.trip.route_id.take 10
    match tu.stop_time_update.find? hasUsableArrival with
    | none => none
    | some stu =>
      some { line := pyOrS route_id ['?'],
             dest := pyOr tu.trip.trip_headsign (pyOrS route_id ['?']),
             in_min := gtfs_in_min (arrivalTime stu) now_ts }

/-- Sort order of variant C's output: `sorted(departures, key=lambda x:
x["in_min"])`. -/
def gtfsLeP (a b : GtfsRecord) : Prop := a.in_min ≤ b.in_min

instance : DecidableRel gtfsLeP := fun a b => by
  unfold gtfsLeP; infer_instance

instance : IsTotal GtfsRecord gtfsLeP := ⟨fun a b => le_total a.in_min b.in_min⟩

instance : IsTrans GtfsRecord gtfsLeP := ⟨fun _ _ _ h1 h2 => le_trans h1 h2⟩

/-- Parse step of `fetch_gtfs_rt` on a successfully decoded feed: one record
per qualifying entity, sorted ascending by `in_min`, truncated to 50.  The
URL resolution and byte download are out of the embedding; `now_ts` is the
single `utcnow().timestamp()` captured for the batch. -/
def fetch_gtfs_rt (feed : FeedMessage) (now_ts : Int) : List GtfsRecord :=
  (List.insertionSort gtfsLeP (feed.entity.filterMap (entity_departure now_ts))).take 50

/-- One iteration of `gtfs_poller_loop`'s body (variant C keeps no
last-success instant, only `LATEST_DEPARTURES`). -/
def gtfs_poller_cycle (latest : List GtfsRecord) (deps : Option (List GtfsRecord)) :
    List GtfsRecord :=
  match deps with
  | none => latest
  | some l => l

/-- Serialization of one variant-C record inside a pushed message. -/
def gtfsRecordJson (r : GtfsRecord) : JVal :=
  .jobj [(("line").toList, .jstr r.line), (("dest").toList, .jstr r.dest),
    (("in_min").toList, .jint r.in_min)]

/-- The simulated fallback lines of variant C's websocket loop. -/
def base_lines : List (Str × Str) :=
  [(("A").toList, ("Muzeum").toList), (("B").toList, ("Florenc").toList),
   (("C").toList, ("Hradčanská").toList), (("D").toList, ("Hloubětín").toList)]

/-- Departures list built by one cycle of variant C's `websocket_endpoint`:
the polled snapshot truncated to 20, else one simulated record per base line
with `random.randint(1, 12)` minutes (`rand i` is the i-th draw). -/
def websocket_departures (latest : List GtfsRecord) (rand : Nat → Int) :
    List GtfsRecord :=
  if latest ≠ [] then latest.take 20
  else base_lines.enum.map fun p => ⟨p.2.1, p.2.2, rand p.1⟩

/-- One message sent by variant C's `websocket_endpoint` loop. -/
def websocket_message (latest : List GtfsRecord) (rand : Nat → Int) (now : Int) :
    List (Str × JVal) :=
  [(("t").toList, .jint now),
   (("departures").toList, .jarr ((websocket_departures latest rand).map gtfsRecordJson))]

/-! ## Concrete example inputs -/

/-- A stop-time update with a usable arrival 120 seconds after epoch. -/
def arr120 : StopTimeUpdate := { arrival := some { time := 120 } }

def tuZ : TripUpdate :=
  { trip := { route_id := ("Z").toList }, stop_time_update := [arr120] }

def tuA : TripUpdate :=
  { trip := { route_id := ("A").toList }, stop_time_update := [arr120] }

def entZ : FeedEntity := { trip_update := some tuZ }

def entA : FeedEntity := { trip_update := some tuA }

/-- Feed with two trips due at the same minute whose destinations are out of
lexicographic order. -/
def tieFeed : FeedMessage := { entity := [entZ, entA] }

/-- Trip update with an empty route id. -/
def tuEmptyRoute : TripUpdate :=
  { trip := { route_id := [] }, stop_time_update := [arr120] }

/-- Feed whose only trip update carries an empty route id. -/
def emptyRouteFeed : FeedMessage :=
  { entity := [{ trip_update := some tuEmptyRoute }] }

/-- Matching line (lowercase), predicted and scheduled both parse. -/
def exDep1 : GolemioDeparture :=
  { route := { short_name := some ("a").toList },
    trip := { headsign := some ("Depo Hostivar").toList },
    departure_timestamp :=
      { predicted := some ("2024-06-01T12:40:00Z").toList,
        scheduled := some ("2024-06-01T12:39:00Z").toList } }

/-- Non-matching line "B". -/
def exDep2 : GolemioDeparture :=
  { route := { short_name := some ("B").toList },
    trip := { headsign := some ("Zlicin").toList },
    departure_timestamp := { scheduled := some ("2024-06-01T12:35:00Z").toList } }

/-- Matching line (padded), malformed predicted, scheduled parses. -/
def exDep3 : GolemioDeparture :=
  { route := { short_name := some (" A ").toList },
    trip := { headsign := some ("Nemocnice Motol").toList },
    departure_timestamp :=
      { predicted := some ("garbage").toList,
        scheduled := some ("2024-06-01T12:31:00Z").toList } }

/-- Matching line, no parseable timestamp at all. -/
def exDep4 : GolemioDeparture :=
  { route := { short_name := some ("A").toList },
    departure_timestamp := { predicted := some ("junk").toList } }

def exPayload : GolemioPayload := { departures := [exDep1, exDep2, exDep3, exDep4] }

/-- The ordering claimed for every batch: ascending `minutes_until` with ties
broken by destination ascending. -/
def tieLe (a b : GtfsRecord) : Prop :=
  a.in_min < b.in_min ∨ (a.in_min = b.in_min ∧ strLe a.dest b.dest = true)

instance : DecidableRel tieLe := fun a b => by
  unfold tieLe; infer_instance

/-! ## Helper lemmas -/

theorem max_tdiv_eq_max_fdiv (d : Int) :
    max 0 (Int.tdiv d 60) = max 0 (Int.fdiv d 60) := by
  rw [Int.fdiv_eq_ediv _ (by norm_num)]
  rcases le_or_lt 0 d with h | h
  · rw [Int.tdiv_eq_ediv h (by norm_num)]
  · have h1 : Int.tdiv d 60 ≤ 0 := by
      have := Int.tdiv_nonneg (a := -d) (b := 60) (by omega) (by norm_num)
      rw [Int.neg_tdiv] at this
      omega
    have h2 : d / 60 ≤ 0 := by omega
    omega

/-- Unfolding of a successful `normalize_entry`. -/
theorem normalize_entry_eq_some {ml : Str} {now : Int} {dep : GolemioDeparture}
    {r : DepRecord} (h : normalize_entry ml now dep = some r) :
    route_line dep = ml ∧
      r = ⟨ml, dep_dest dep, max 0 (Int.fdiv (r.t_utc - now) 60), r.t_utc⟩ := by
  by_cases hl : route_line dep = ml
  · refine ⟨hl, ?_⟩
    unfold normalize_entry at h
    rw [if_neg (by simp [hl])] at h
    rcases hp : parse_iso dep.departure_timestamp.predicted with _ | t
    · rcases hs : parse_iso dep.departure_timestamp.scheduled with _ | t
      · simp [hp, hs] at h
      · simp only [hp, hs, minutes_until, Option.some.injEq] at h
        subst h
        rfl
    · simp only [hp, minutes_until, Option.some.injEq] at h
      subst h
      rfl
  · unfold normalize_entry at h
    rw [if_pos (by simp [hl])] at h
    simp at h

theorem mem_normalize {payload : GolemioPayload} {ml : Str} {now : Int}
    {r : DepRecord} (h : r ∈ normalize_departureboards payload ml now) :
    ∃ dep ∈ payload.departures,
      normalize_entry (pyUpper (pyStrip ml)) now dep = some r := by
  unfold normalize_departureboards at h
  rw [(List.perm_insertionSort _ _).mem_iff] at h
  exact List.mem_filterMap.mp h

theorem normalize_sorted (payload : GolemioPayload) (ml : Str) (now : Int) :
    (normalize_departureboards payload ml now).Sorted depLeP :=
  List.sorted_insertionSort depLeP _

/-- Skipped entries leave the rest of the batch unchanged. -/
theorem normalize_skip {dep : GolemioDeparture} {ml : Str} {now : Int}
    (pre post : List GolemioDeparture)
    (h : normalize_entry (pyUpper (pyStrip ml)) now dep = none) :
    normalize_departureboards ⟨pre ++ dep :: post⟩ ml now =
      normalize_departureboards ⟨pre ++ post⟩ ml now := by
  unfold normalize_departureboards
  simp [List.filterMap_append, List.filterMap_cons, h]

/-- Unfolding of a successful `entity_departure`. -/
theorem entity_departure_eq_some {now_ts : Int} {e : FeedEntity} {tu : TripUpdate}
    {r : GtfsRecord} (he : e.trip_update = some tu)
    (h : entity_departure now_ts e = some r) :
    ∃ stu, tu.stop_time_update.find? hasUsableArrival = some stu ∧
      r = ⟨pyOrS (tu.trip.route_id.take 10) (("?").toList),
           pyOr tu.trip.trip_headsign (pyOrS (tu.trip.route_id.take 10) (("?").toList)),
           gtfs_in_min (arrivalTime stu) now_ts⟩ := by
  unfold entity_departure at h
  rw [he] at h
  rcases hfind : tu.stop_time_update.find? hasUsableArrival with _ | stu
  · simp [hfind] at h
  · simp only [hfind, Option.some.injEq] at h
    exact ⟨stu, rfl, h.symm⟩

theorem mem_fetch_gtfs {feed : FeedMessage} {now_ts : Int} {r : GtfsRecord}
    (h : r ∈ fetch_gtfs_rt feed now_ts) :
    ∃ e ∈ feed.entity, entity_departure now_ts e = some r := by
  unfold fetch_gtfs_rt at h
  have h' := List.mem_of_mem_take h
  rw [(List.perm_insertionSort _ _).mem_iff] at h'
  exact List.mem_filterMap.mp h'

theorem gtfs_sorted (feed : FeedMessage) (now_ts : Int) :
    (fetch_gtfs_rt feed now_ts).Sorted gtfsLeP :=
  List.Pairwise.sublist (List.take_sublist _ _)
    (List.sorted_insertionSort gtfsLeP _)

/-! ## Claims -/

/-- C1 (amended): every batch of either parser is sorted non-decreasing by
`minutes_until`; the JSON variant additionally breaks ties by destination
ascending, while the binary variant sorts by `minutes_until` only and keeps
ties in input order, not destination order. -/
theorem C1_batch_order :
    (∀ payload ml now,
        (normalize_departureboards payload ml now).Sorted depLeP) ∧
    (∀ feed now_ts, (fetch_gtfs_rt feed now_ts).Sorted gtfsLeP) :=
  ⟨normalize_sorted, gtfs_sorted⟩

/-- C1 counterexample: the binary-variant parser's output on `tieFeed` has two
records with equal `minutes_until` whose destinations are in descending order,
so the claimed tie-break by destination does not hold for that parser. -/
theorem C1_counterexample : ¬ (fetch_gtfs_rt tieFeed 0).Sorted tieLe := by
  decide

/-- C2 (amended): a poller cycle whose fetch-and-parse yields no result
leaves the snapshot (and, in variant A, the last-success instant) unchanged;
a successful cycle replaces the snapshot with the new batch and, in variant A
only, advances the last-success instant to the cycle's current time — variant
C maintains no last-success instant. -/
theorem C2_poller_cycle :
    (∀ st now, poller_cycle st none now = st) ∧
    (∀ st l now,
        poller_cycle st (some l) now = { latest := l, last_ok_utc := some now }) ∧
    (∀ latest, gtfs_poller_cycle latest none = latest) ∧
    (∀ latest l, gtfs_poller_cycle latest (some l) = l) :=
  ⟨fun _ _ => rfl, fun _ _ _ => rfl, fun _ => rfl, fun _ _ => rfl⟩

/-- C2 counterexample: variant C's poller cannot advance any last-success
instant, because the state it mutates (`LATEST_DEPARTURES`, the whole of
`gtfs_poller_cycle`'s output) does not depend on the cycle's current time: no
reading of the post-cycle state can equal the current time of every
successful cycle, as two successful cycles at times 0 and 1 with the same
(empty) snapshot and batch produce identical states. -/
theorem C2_counterexample :
    ¬ ∃ f : List GtfsRecord → Option Int,
        ∀ (latest deps : List GtfsRecord) (now : Int),
          f (gtfs_poller_cycle latest (some deps)) = some now := by
  rintro ⟨f, hf⟩
  have h0 := hf [] [] 0
  have h1 := hf [] [] 1
  rw [h0] at h1
  exact absurd h1 (by decide)

/-- C3: the online flag is true iff some fetch has succeeded and the age of
the last success is at most the offline threshold; while no fetch has ever
succeeded it is false, and as soon as the last success is older than the
threshold the very next evaluation returns false. -/
theorem C3_online_flag :
    (∀ now th, is_online none now th = false) ∧
    (∀ t now th, is_online (some t) now th = true ↔ now - t ≤ th) ∧
    (∀ t now th, th < now - t → is_online (some t) now th = false) := by
  refine ⟨fun _ _ => rfl, fun t now th => ?_, fun t now th h => ?_⟩
  · simp [is_online]
  · simp only [is_online, decide_eq_false_iff_not]
    omega

theorem C3_witness : is_online (some 0) 100 60 = false :=
  C3_online_flag.2.2 0 100 60 (by decide)

/-- C4: both parsers compute `minutes_until` as
`max(0, floor((timestamp - now) / 60))` from the single `now` captured for
the batch (the binary variant's `int()` truncation coincides with `floor`
under the clamp), so no output record of either parser has negative
`minutes_until`. -/
theorem C4_minutes_clamped :
    (∀ t now, minutes_until (some t) now = some (max 0 (Int.fdiv (t - now) 60))) ∧
    (∀ a now, gtfs_in_min a now = max 0 (Int.fdiv (a - now) 60)) ∧
    (∀ ts now m, minutes_until ts now = some m → 0 ≤ m) ∧
    (∀ payload ml now r, r ∈ normalize_departureboards payload ml now →
        0 ≤ r.in_min) ∧
    (∀ feed now_ts r, r ∈ fetch_gtfs_rt feed now_ts → 0 ≤ r.in_min) := by
  refine ⟨fun _ _ => rfl, fun a now => max_tdiv_eq_max_fdiv _, ?_, ?_, ?_⟩
  · intro ts now m h
    cases ts with
    | none => simp [minutes_until] at h
    | some t =>
      simp only [minutes_until, Option.some.injEq] at h
      subst h
      exact le_max_left _ _
  · intro payload ml now r hr
    obtain ⟨dep, -, hdep⟩ := mem_normalize hr
    obtain ⟨-, hre⟩ := normalize_entry_eq_some hdep
    rw [hre]
    exact le_max_left _ _
  · intro feed now_ts r hr
    obtain ⟨e, -, he⟩ := mem_fetch_gtfs hr
    rcases het : e.trip_update with _ | tu
    · rw [entity_departure, het] at he
      simp at he
    · obtain ⟨stu, -, hre⟩ := entity_departure_eq_some het he
      rw [hre]
      exact le_max_left _ _

theorem C4_witness :
    ((0 : Int) ≤ 2) ∧ ((0 : Int) ≤ 1) ∧ ((0 : Int) ≤ 2) :=
  ⟨C4_minutes_clamped.2.2.1 (some 120) 0 2 (by decide),
   C4_minutes_clamped.2.2.2.1 exPayload ((" a ").toList) 1717245000
     ⟨("A").toList, ("Nemocnice Motol").toList, 1, 1717245060⟩ (by decide),
   C4_minutes_clamped.2.2.2.2 tieFeed 0 ⟨("Z").toList, ("Z").toList, 2⟩
     (by decide)⟩

/-- C5: every record the JSON-variant parser outputs carries the (normalized)
target line, and an entry whose uppercased route short-name differs from the
uppercased target line contributes nothing — it is dropped silently, leaving
the rest of the batch unchanged. -/
theorem C5_line_filter :
    (∀ payload ml now r, r ∈ normalize_departureboards payload ml now →
        r.line = pyUpper (pyStrip ml)) ∧
    (∀ pre dep post ml now, route_line dep ≠ pyUpper (pyStrip ml) →
        normalize_departureboards ⟨pre ++ dep :: post⟩ ml now =
          normalize_departureboards ⟨pre ++ post⟩ ml now) := by
  constructor
  · intro payload ml now r hr
    obtain ⟨dep, -, hdep⟩ := mem_normalize hr
    obtain ⟨-, hre⟩ := normalize_entry_eq_some hdep
    rw [hre]
  · intro pre dep post ml now hne
    refine normalize_skip pre post ?_
    unfold normalize_entry
    rw [if_pos hne]

theorem C5_witness :
    ((⟨("A").toList, ("Nemocnice Motol").toList, 1, 1717245060⟩ :
        DepRecord).line = pyUpper (pyStrip ((" a ").toList))) ∧
    normalize_departureboards ⟨[exDep1, exDep2, exDep3]⟩ (("A").toList)
        1717245000 =
      normalize_departureboards ⟨[exDep1, exDep3]⟩ (("A").toList) 1717245000 :=
  ⟨C5_line_filter.1 exPayload ((" a ").toList) 1717245000
     ⟨("A").toList, ("Nemocnice Motol").toList, 1, 1717245060⟩ (by decide),
   C5_line_filter.2 [exDep1] exDep2 [exDep3] (("A").toList) 1717245000
     (by decide)⟩

/-- C10: a cycle that fetches and parses successfully but produces an empty
batch (e.g. no entry matches the target line) still counts as a success: the
fetch step returns the empty list rather than `None`, the poller stores the
empty snapshot and advances the last-success instant, and the system can then
report online while holding an empty board. -/
theorem C10_empty_batch_success :
    (∀ payload now, (∀ dep ∈ payload.departures, route_line dep ≠ METRO_LINE) →
        normalize_departureboards payload METRO_LINE now = []) ∧
    (∀ api_key payload now, api_key ≠ [] →
        fetch_golemio_departures api_key (some payload) now =
          some (normalize_departureboards payload METRO_LINE now)) ∧
    (∀ st now, poller_cycle st (some []) now =
        { latest := [], last_ok_utc := some now }) ∧
    (∀ now th, 0 ≤ th → is_online (some now) now th = true) := by
  have hml : pyUpper (pyStrip METRO_LINE) = METRO_LINE := by decide
  refine ⟨?_, ?_, fun _ _ => rfl, ?_⟩
  · intro payload now hall
    unfold normalize_departureboards
    rw [hml]
    have hnil : payload.departures.filterMap (normalize_entry METRO_LINE now) = [] := by
      rw [List.filterMap_eq_nil_iff]
      intro dep hdep
      unfold normalize_entry
      rw [if_pos (hall dep hdep)]
    dsimp only
    rw [hnil]
    rfl
  · intro api_key payload now hkey
    unfold fetch_golemio_departures
    rw [if_neg hkey]
  · intro now th h
    simp only [is_online, decide_eq_true_eq]
    omega

/-- C6: each JSON-variant entry's effective timestamp prefers the predicted
field when it parses as an ISO-8601 instant (a `Z` suffix meaning UTC, a
string without an offset interpreted as UTC), otherwise the scheduled field;
a malformed string is treated as absent rather than failing the batch, and an
entry for which neither field parses is skipped while the rest of the batch
is still produced. -/
theorem C6_timestamp_preference :
    (∀ ml now dep t, route_line dep = ml →
        parse_iso dep.departure_timestamp.predicted = some t →
        normalize_entry ml now dep =
          some ⟨ml, dep_dest dep, max 0 (Int.fdiv (t - now) 60), t⟩) ∧
    (∀ ml now dep t, route_line dep = ml →
        parse_iso dep.departure_timestamp.predicted = none →
        parse_iso dep.departure_timestamp.scheduled = some t →
        normalize_entry ml now dep =
          some ⟨ml, dep_dest dep, max 0 (Int.fdiv (t - now) 60), t⟩) ∧
    (∀ ml now dep, parse_iso dep.departure_timestamp.predicted = none →
        parse_iso dep.departure_timestamp.scheduled = none →
        normalize_entry ml now dep = none) ∧
    (∀ pre dep post ml now,
        parse_iso dep.departure_timestamp.predicted = none →
        parse_iso dep.departure_timestamp.scheduled = none →
        normalize_departureboards ⟨pre ++ dep :: post⟩ ml now =
          normalize_departureboards ⟨pre ++ post⟩ ml now) ∧
    (parse_iso (some ("2024-06-01T12:30:00Z").toList) = some 1717245000 ∧
      parse_iso (some ("2024-06-01T12:30:00+00:00").toList) = some 1717245000 ∧
      parse_iso (some ("2024-06-01T12:30:00").toList) = some 1717245000 ∧
      parse_iso (some ("2024-06-01T14:30:00+02:00").toList) = some 1717245000 ∧
      parse_iso (some ("not-a-date").toList) = none ∧
      parse_iso none = none) := by
  have hnone : ∀ ml now dep,
      parse_iso dep.departure_timestamp.predicted = none →
      parse_iso dep.departure_timestamp.scheduled = none →
      normalize_entry ml now dep = none := by
    intro ml now dep hp hs
    unfold normalize_entry
    by_cases hl : route_line dep ≠ ml
    · rw [if_pos hl]
    · rw [if_neg hl]
      simp only [hp, hs]
  refine ⟨?_, ?_, hnone, ?_, by decide⟩
  · intro ml now dep t hl hp
    unfold normalize_entry
    rw [if_neg (by simp [hl])]
    simp only [hp, minutes_until]
  · intro ml now dep t hl hp hs
    unfold normalize_entry
    rw [if_neg (by simp [hl])]
    simp only [hp, hs, minutes_until]
  · intro pre dep post ml now hp hs
    exact normalize_skip pre post (hnone _ _ _ hp hs)

theorem C6_witness :
    (normalize_entry (("A").toList) 1717245000 exDep1 =
      some ⟨("A").toList, dep_dest exDep1,
        max 0 (Int.fdiv (1717245600 - 1717245000) 60), 1717245600⟩) ∧
    (normalize_entry (("A").toList) 1717245000 exDep3 =
      some ⟨("A").toList, dep_dest exDep3,
        max 0 (Int.fdiv (1717245060 - 1717245000) 60), 1717245060⟩) ∧
    (normalize_entry (("A").toList) 1717245000 exDep4 = none) ∧
    (normalize_departureboards ⟨[exDep1, exDep4]⟩ (("A").toList) 1717245000 =
      normalize_departureboards ⟨[exDep1]⟩ (("A").toList) 1717245000) :=
  ⟨C6_timestamp_preference.1 (("A").toList) 1717245000 exDep1 1717245600
     (by decide) (by decide),
   C6_timestamp_preference.2.1 (("A").toList) 1717245000 exDep3 1717245060
     (by decide) (by decide) (by decide),
   C6_timestamp_preference.2.2.1 (("A").toList) 1717245000 exDep4
     (by decide) (by decide),
   C6_timestamp_preference.2.2.2.1 [exDep1] exDep4 [] (("A").toList)
     1717245000 (by decide) (by decide)⟩

/-- C7 (amended): each entity with a trip update contributes at most one
record, taken from the first stop-time update that carries a usable (nonzero)
arrival time; the record's line is the route id truncated to at most 10
characters, except that an empty route id is replaced by the placeholder
`"?"`; the output is sorted ascending by `minutes_until` and truncated to at
most 50 records. -/
theorem C7_entity_records :
    (∀ feed now_ts, (fetch_gtfs_rt feed now_ts).length ≤ 50) ∧
    (∀ feed now_ts, (fetch_gtfs_rt feed now_ts).length ≤ feed.entity.length) ∧
    (∀ now_ts e tu r, e.trip_update = some tu →
        entity_departure now_ts e = some r →
        r.line = pyOrS (tu.trip.route_id.take 10) (("?").toList) ∧
          r.line.length ≤ 10) ∧
    (∀ now_ts e tu r, e.trip_update = some tu →
        entity_departure now_ts e = some r →
        ∃ pre stu post, tu.stop_time_update = pre ++ stu :: post ∧
          hasUsableArrival stu = true ∧
          (∀ x ∈ pre, hasUsableArrival x = false) ∧
          r.in_min = gtfs_in_min (arrivalTime stu) now_ts) ∧
    (∀ feed now_ts, (fetch_gtfs_rt feed now_ts).Sorted gtfsLeP) := by
  refine ⟨?_, ?_, ?_, ?_, gtfs_sorted⟩
  · intro feed now_ts
    unfold fetch_gtfs_rt
    rw [List.length_take]
    exact min_le_left _ _
  · intro feed now_ts
    unfold fetch_gtfs_rt
    rw [List.length_take]
    refine le_trans (min_le_right _ _) ?_
    rw [List.length_insertionSort]
    exact List.length_filterMap_le _ _
  · intro now_ts e tu r he h
    obtain ⟨stu, -, hre⟩ := entity_departure_eq_some he h
    subst hre
    refine ⟨rfl, ?_⟩
    show (pyOrS (tu.trip.route_id.take 10) (("?").toList)).length ≤ 10
    unfold pyOrS
    split
    · simp
    · rw [List.length_take]
      exact min_le_left _ _
  · intro now_ts e tu r he h
    obtain ⟨stu, hfind, hre⟩ := entity_departure_eq_some he h
    obtain ⟨hp, pre, post, heq, hprev⟩ := List.find?_eq_some.mp hfind
    exact ⟨pre, stu, post, heq, hp,
      fun x hx => by simpa using hprev x hx, by rw [hre]⟩

/-- C7 counterexample: on a feed whose only trip update has an empty route
id, the emitted record's line is the placeholder `"?"`, not the (empty)
truncated route id the claim prescribes. -/
theorem C7_counterexample :
    ¬ (∀ r ∈ fetch_gtfs_rt emptyRouteFeed 0,
        r.line = tuEmptyRoute.trip.route_id.take 10) := by
  decide

theorem C7_witness :
    ((⟨("Z").toList, ("Z").toList, 2⟩ : GtfsRecord).line =
        pyOrS ((("Z").toList).take 10) (("?").toList) ∧
      (⟨("Z").toList, ("Z").toList, 2⟩ : GtfsRecord).line.length ≤ 10) ∧
    (∃ pre stu post, tuZ.stop_time_update = pre ++ stu :: post ∧
        hasUsableArrival stu = true ∧
        (∀ x ∈ pre, hasUsableArrival x = false) ∧
        (⟨("Z").toList, ("Z").toList, 2⟩ : GtfsRecord).in_min =
          gtfs_in_min (arrivalTime stu) 0) :=
  ⟨C7_entity_records.2.2.1 0 entZ tuZ ⟨("Z").toList, ("Z").toList, 2⟩
     rfl (by decide),
   C7_entity_records.2.2.2.1 0 entZ tuZ ⟨("Z").toList, ("Z").toList, 2⟩
     rfl (by decide)⟩

theorem ws_updates_departures_le (latest : List DepRecord) (now : Int) :
    (ws_updates_departures latest now).length ≤ 20 := by
  unfold ws_updates_departures
  dsimp only
  rcases latest with _ | ⟨a, l⟩
  · simp
  · have h1 : (a :: l) ≠ [] := by simp
    rw [if_pos h1]
    by_cases h2 : List.take 20 (a :: l) = []
    · rw [if_pos h2]
      simp
    · rw [if_neg h2, List.length_take]
      exact min_le_left _ _

theorem websocket_departures_le (latest : List GtfsRecord) (rand : Nat → Int) :
    (websocket_departures latest rand).length ≤ 20 := by
  unfold websocket_departures
  split
  · rw [List.length_take]
    exact min_le_left _ _
  · rw [List.length_map, List.enum_length]
    decide

/-- C8 (amended): every message variant A pushes has exactly the keys `t`,
`departures`, `online` with at most 20 departures entries; every message
variant C pushes has exactly the keys `t` and `departures` (no `online`
field) with at most 20 entries. -/
theorem C8_message_shape :
    (∀ latest now online, (ws_updates_message latest now online).map Prod.fst =
        [("t").toList, ("departures").toList, ("online").toList]) ∧
    (∀ latest now online, ∃ l,
        (ws_updates_message latest now online)[1]? =
          some ((("departures").toList), JVal.jarr l) ∧ l.length ≤ 20) ∧
    (∀ latest rand now, (websocket_message latest rand now).map Prod.fst =
        [("t").toList, ("departures").toList]) ∧
    (∀ latest rand now, ∃ l,
        (websocket_message latest rand now)[1]? =
          some ((("departures").toList), JVal.jarr l) ∧ l.length ≤ 20) := by
  refine ⟨fun _ _ _ => rfl, ?_, fun _ _ _ => rfl, ?_⟩
  · intro latest now online
    exact ⟨_, rfl, by rw [List.length_map]; exact ws_updates_departures_le _ _⟩
  · intro latest rand now
    exact ⟨_, rfl, by rw [List.length_map]; exact websocket_departures_le _ _⟩

/-- C8 counterexample: variant C's pushed message carries no `online` key at
all, so the claimed `{t, departures, online}` shape fails for its push
channel. -/
theorem C8_counterexample :
    ("online").toList ∉ (websocket_message [] (fun _ => 5) 0).map Prod.fst := by
  decide

theorem C10_witness :
    (normalize_departureboards ⟨[exDep2]⟩ METRO_LINE 0 = []) ∧
    (fetch_golemio_departures (("k").toList) (some ⟨[exDep2]⟩) 0 =
      some (normalize_departureboards ⟨[exDep2]⟩ METRO_LINE 0)) ∧
    is_online (some 5) 5 60 = true :=
  ⟨C10_empty_batch_success.1 ⟨[exDep2]⟩ 0 (by decide),
   C10_empty_batch_success.2.1 (("k").toList) ⟨[exDep2]⟩ 0 (by decide),
   C10_empty_batch_success.2.2.2 5 60 (by decide)⟩

/-- C9: when the stored snapshot is empty, variant A's broadcaster pushes
exactly one well-formed placeholder record (configured line, placeholder
glyph, zero minutes); neither variant's push channel ever emits an empty
departures list. -/
theorem C9_placeholder_push :
    (∀ now, ws_updates_departures [] now = [⟨METRO_LINE, emDash, 0, now⟩]) ∧
    (∀ latest now, ws_updates_departures latest now ≠ []) ∧
    (∀ latest rand, websocket_departures latest rand ≠ []) := by
  refine ⟨fun _ => rfl, fun latest now => ?_, fun latest rand => ?_⟩
  · rcases latest with _ | ⟨a, l⟩
    · simp [ws_updates_departures]
    · simp [ws_updates_departures, List.take_cons]
  · rcases latest with _ | ⟨a, l⟩
    · simp [websocket_departures, base_lines]
    · simp [websocket_departures, List.take_cons]
